import Mathlib

/-
  Verification of the unisimple_mail reconciliation core against its
  natural-language specification.

  The Lean definitions below are a shallow embedding of the Python sources:

  * `getAllPages`            embeds `AmoClient._get_all_pages`   (src/amo/client.py, lines 110-154)
  * `ensureIdsInit`          embeds `AmoClient._ensure_ids_initialized` (client.py, lines 157-196)
  * `createLeadPayload`      embeds the payload built in `AmoClient.create_lead` (client.py, 461-470)
  * `updateLeadPayload`      embeds the payload built in `AmoClient.update_lead` (client.py, 517-525)
  * `handle_lead_processing` embeds `_handle_lead_processing`    (src/processing/amocrm_processor.py, 148-310)
  * `taskAssignee`           embeds the assignment logic of `_create_task` (amocrm_processor.py, 108-131)

  Remote calls issued by the processor are recorded as a trace
  (`List RemoteCall`); the responses the remote CRM would give are
  supplied by an environment (`ProcEnv`, `AmoEnv`), one response per
  call site, mirroring the fact that every remote call site executes
  at most once per record.  Python floats (prices) are modelled as
  rationals; Python truthiness of optional ints and strings is
  modelled by `optTruthy` and `strTruthy`.

  A central fact of this code base: the shipped `Settings` class
  (src/settings/init, a pydantic BaseSettings) does NOT declare
  `CUSTOM_FIELD_NAME_COMPANY_PHONE`, `CUSTOM_FIELD_NAME_COMPANY_EMAIL`,
  `CUSTOM_FIELD_NAME_PURCHASE_NUMBER` or `CUSTOM_FIELD_NAME_TIME_ZONE`,
  and `DBStatePurchase` (schemas.py) declares no `time_zone` field,
  yet the client and the processor read all of them; on a pydantic
  model such a read raises AttributeError deterministically.
  `SettingsModel` therefore carries those attributes as `Option String`
  (`none` = undeclared, read raises, via `getKey`), `shippedSettings`
  is the instance matching the shipped declarations, and the raising
  reads are embedded where the source performs them (client.py 184,
  client.py 391, amocrm_processor.py 255-258).
-/

/-! ## Pagination (`AmoClient._get_all_pages`) -/

/-- Value found under the entity key of the response envelope: either a JSON
array (the normal case) or a non-list value, whose Python truthiness the
source inspects (client.py line 139-143). -/
inductive EmbVal (α : Type) where
  | arr (l : List α)
  | scalar (truthy : Bool) (v : α)
deriving DecidableEq, Repr

/-- A response envelope.  `embedded = none` models every case the source
treats alike at line 133: falsy response, missing `_embedded`, or missing
entity key.  `hasNext` models the presence of a `_links.next` entry. -/
structure Envelope (α : Type) where
  embedded : Option (EmbVal α)
  hasNext : Bool
deriving DecidableEq, Repr

/-- Result of requesting one page: either the request raised (caught at
client.py line 129-131) or an envelope came back. -/
inductive PageResp (α : Type) where
  | fetchError
  | ok (e : Envelope α)
deriving DecidableEq, Repr

/-- Query parameters attached to one page request (client.py lines 124-126). -/
structure PageReq where
  page : Nat
  limit : Nat
deriving DecidableEq, Repr

/-- The body of the `while True` loop of `_get_all_pages`, with explicit fuel
(the source loop terminates only through its `break` statements).  Returns the
accumulated entities together with the trace of page requests issued.
Translated line by line from client.py 121-154. -/
def getAllPagesAux (fetch : Nat → PageResp α) : Nat → Nat → List α → List PageReq → List α × List PageReq
  | 0, _page, acc, reqs => (acc, reqs)
  | fuel + 1, page, acc, reqs =>
    let reqs2 := reqs ++ [⟨page, 250⟩]
    match fetch page with
    | .fetchError => (acc, reqs2)
    | .ok e =>
      match e.embedded with
      | none => (acc, reqs2)
      | some (.scalar t v) =>
        if t then
          if e.hasNext then getAllPagesAux fetch fuel (page + 1) (acc ++ [v]) reqs2
          else (acc ++ [v], reqs2)
        else (acc, reqs2)
      | some (.arr l) =>
        if l.isEmpty then (acc, reqs2)
        else if e.hasNext then getAllPagesAux fetch fuel (page + 1) (acc ++ l) reqs2
        else (acc ++ l, reqs2)

/-- `_get_all_pages`: start at page 1 with an empty accumulator. -/
def getAllPages (fetch : Nat → PageResp α) (fuel : Nat) : List α × List PageReq :=
  getAllPagesAux fetch fuel 1 [] []

/-- A page response on which the source loop stops (does not request a
further page). -/
def isStop : PageResp α → Bool
  | .fetchError => true
  | .ok e =>
    match e.embedded with
    | none => true
    | some (.arr l) => l.isEmpty || !e.hasNext
    | some (.scalar t _) => !t || !e.hasNext

/-- What the stopping page contributes to the accumulator: a final non-empty
array without a next link is still appended (client.py line 147 runs before
the next-link check at 149); every other stop contributes nothing. -/
def stopExtra : PageResp α → List α
  | .fetchError => []
  | .ok e =>
    match e.embedded with
    | none => []
    | some (.arr l) => if l.isEmpty then [] else if e.hasNext then [] else l
    | some (.scalar t v) => if t && !e.hasNext then [v] else []

theorem getAllPagesAux_run (fetch : Nat → PageResp α) (L : Nat → List α) :
    ∀ (n page : Nat) (acc : List α) (reqs : List PageReq) (fuel : Nat), n < fuel →
    (∀ i, i < n → fetch (page + i) = .ok ⟨some (.arr (L (page + i))), true⟩ ∧ L (page + i) ≠ []) →
    isStop (fetch (page + n)) = true →
    getAllPagesAux fetch fuel page acc reqs =
      (acc ++ (((List.range n).map fun i => L (page + i)).flatten ++ stopExtra (fetch (page + n))),
       reqs ++ ((List.range (n + 1)).map fun i => ⟨page + i, 250⟩)) := by
  intro n
  induction n with
  | zero =>
    intro page acc reqs fuel hfuel _ hstop
    obtain ⟨f, rfl⟩ : ∃ f, fuel = f + 1 := ⟨fuel - 1, by omega⟩
    simp only [Nat.add_zero] at hstop ⊢
    cases h : fetch page with
    | fetchError => simp [getAllPagesAux, h, stopExtra, List.range_succ]
    | ok e =>
      rcases e with ⟨emb, nxt⟩
      cases emb with
      | none => simp [getAllPagesAux, h, stopExtra, List.range_succ]
      | some ev =>
        cases ev with
        | arr l =>
          rw [h] at hstop
          simp only [isStop] at hstop
          by_cases hl : l.isEmpty
          · simp [getAllPagesAux, h, stopExtra, hl, List.range_succ]
          · have hnxt : nxt = false := by
              cases nxt <;> simp_all
            subst hnxt
            simp [getAllPagesAux, h, stopExtra, hl, List.range_succ]
        | scalar t v =>
          rw [h] at hstop
          simp only [isStop] at hstop
          by_cases ht : t
          · have hnxt : nxt = false := by
              cases nxt <;> simp_all
            subst hnxt
            simp [getAllPagesAux, h, stopExtra, ht, List.range_succ]
          · simp only [Bool.not_eq_true] at ht
            subst ht
            simp [getAllPagesAux, h, stopExtra, List.range_succ]
  | succ n ih =>
    intro page acc reqs fuel hfuel hbody hstop
    obtain ⟨f, rfl⟩ : ∃ f, fuel = f + 1 := ⟨fuel - 1, by omega⟩
    obtain ⟨h0, h0ne⟩ := hbody 0 (Nat.succ_pos n)
    simp only [Nat.add_zero] at h0 h0ne
    have hrec : getAllPagesAux fetch (f + 1) page acc reqs =
        getAllPagesAux fetch f (page + 1) (acc ++ L page) (reqs ++ [⟨page, 250⟩]) := by
      simp [getAllPagesAux, h0, List.isEmpty_eq_true, h0ne]
    rw [hrec]
    have hbody2 : ∀ i, i < n → fetch (page + 1 + i) = .ok ⟨some (.arr (L (page + 1 + i))), true⟩ ∧
        L (page + 1 + i) ≠ [] := by
      intro i hi
      have := hbody (i + 1) (by omega)
      have harith : page + (i + 1) = page + 1 + i := by omega
      rwa [harith] at this
    have hstop2 : isStop (fetch (page + 1 + n)) = true := by
      have harith : page + (n + 1) = page + 1 + n := by omega
      rwa [harith] at hstop
    rw [ih (page + 1) (acc ++ L page) (reqs ++ [PageReq.mk page 250]) f (by omega) hbody2 hstop2]
    have harith : page + 1 + n = page + (n + 1) := by omega
    rw [harith]
    have hmapL : (List.range (n + 1)).map (fun i => L (page + i)) =
        L page :: ((List.range n).map fun i => L (page + 1 + i)) := by
      rw [List.range_succ_eq_map, List.map_cons, List.map_map]
      simp only [Nat.add_zero]
      congr 1
      apply List.map_congr_left
      intro i _
      simp only [Function.comp_apply]
      congr 1
      omega
    have hmapR : (List.range (n + 1 + 1)).map (fun i => PageReq.mk (page + i) 250) =
        PageReq.mk page 250 :: ((List.range (n + 1)).map fun i => PageReq.mk (page + 1 + i) 250) := by
      rw [List.range_succ_eq_map, List.map_cons, List.map_map]
      simp only [Nat.add_zero]
      congr 1
      apply List.map_congr_left
      intro i _
      simp only [Function.comp_apply]
      congr 1
      omega
    rw [hmapL, hmapR]
    simp [List.flatten_cons, List.append_assoc]

/-- Claim C7: for every endpoint and query, the paginated collector returns
the concatenation of the result-key arrays of successive pages in first-seen
order, starting at page 1 with limit 250, stopping at the first empty
extracted array or the first envelope lacking a next link; on a fetch error
at any page it stops and returns the partial accumulator gathered so far
instead of raising.  Here `L i` is the array served for page `i`, the first
`n` pages are non-empty arrays with a next link, and page `n + 1` is the
first stopping page (fetch error, missing key, empty array, or array without
a next link, whose contribution is `stopExtra`). -/
theorem getAllPages_collects (fetch : Nat → PageResp α) (L : Nat → List α) (n fuel : Nat)
    (hfuel : n < fuel)
    (hbody : ∀ i, i < n → fetch (1 + i) = .ok ⟨some (.arr (L (1 + i))), true⟩ ∧ L (1 + i) ≠ [])
    (hstop : isStop (fetch (1 + n)) = true) :
    getAllPages fetch fuel =
      (((List.range n).map fun i => L (1 + i)).flatten ++ stopExtra (fetch (1 + n)),
       (List.range (n + 1)).map fun i => PageReq.mk (1 + i) 250) := by
  unfold getAllPages
  rw [getAllPagesAux_run fetch L n 1 [] [] fuel hfuel hbody hstop]
  simp

/-- Concrete three-page oracle used to witness `getAllPages_collects`:
page 1 carries `[10, 20]` with a next link, page 2 carries `[30]` without
one, later pages error. -/
def fetchW : Nat → PageResp Nat := fun p =>
  if p = 1 then .ok ⟨some (.arr [10, 20]), true⟩
  else if p = 2 then .ok ⟨some (.arr [30]), false⟩
  else .fetchError

/-- Page-array table matching `fetchW`. -/
def pagesW : Nat → List Nat := fun p => if p = 1 then [10, 20] else [30]

theorem getAllPages_collects_witness :
    getAllPages fetchW 3 = ([10, 20, 30], [PageReq.mk 1 250, PageReq.mk 2 250]) := by
  have h := getAllPages_collects fetchW pagesW 1 3 (by decide)
    (by decide) (by decide)
  rw [h]
  decide

/-! ## Settings (`src/settings/__init__.py`) -/

/-- The settings attributes read by the code modelled here.
`MIN_LEAD_BUDGET` is a declared field (default 100000, overridable from
the environment).  The four name attributes are the ones the code reads
but the shipped `Settings` class never declares: they are `Option String`,
with `none` meaning the attribute does not exist and reading it raises
AttributeError (modelled by `getKey` below).  No environment file can add
an undeclared attribute to a pydantic model, so on the shipped program
these four are always `none`. -/
structure SettingsModel where
  MIN_LEAD_BUDGET : ℚ
  CUSTOM_FIELD_NAME_PURCHASE_NUMBER : Option String
  CUSTOM_FIELD_NAME_TIME_ZONE : Option String
  CUSTOM_FIELD_NAME_COMPANY_PHONE : Option String
  CUSTOM_FIELD_NAME_COMPANY_EMAIL : Option String

/-- The shipped configuration: the default minimum budget and none of the
four undeclared attributes. -/
def shippedSettings : SettingsModel :=
  { MIN_LEAD_BUDGET := 100000,
    CUSTOM_FIELD_NAME_PURCHASE_NUMBER := none,
    CUSTOM_FIELD_NAME_TIME_ZONE := none,
    CUSTOM_FIELD_NAME_COMPANY_PHONE := none,
    CUSTOM_FIELD_NAME_COMPANY_EMAIL := none }

/-! ## Entity directory (`AmoClient._ensure_ids_initialized`) -/

/-- Python dict with string-valued keys, modelled as a lookup function;
assignment overwrites. -/
def Dict (κ ν : Type) := κ → Option ν

/-- The empty dict. -/
def Dict.empty {κ ν : Type} : Dict κ ν := fun _ => none

/-- `d[k] = v`. -/
def Dict.insert {κ ν : Type} [DecidableEq κ] (d : Dict κ ν) (k : κ) (v : ν) : Dict κ ν :=
  fun q => if q = k then some v else d q

/-- `d[k]` with a KeyError modelled as `Except.error` (the except-branch of
`_ensure_ids_initialized`, client.py lines 194-196, turns any such exception
into a raised RuntimeError). -/
def getKey {β : Type} : Option β → Except Unit β
  | some v => .ok v
  | none => .error ()

/-- A fetched catalog entry as the source reads it: `e['name']` and `e['id']`,
each possibly missing. -/
structure NamedEntry where
  name : Option String
  id : Option Nat
deriving DecidableEq, Repr

/-- A fetched pipeline entry: `p['name']`, `p['id']` and the nested status
list `p.get('_embedded', {}).get('statuses', [])` (a missing nest reads as
the empty list, exactly as the source defaults). -/
structure PipelineEntry where
  name : Option String
  id : Option Nat
  statuses : List NamedEntry
deriving DecidableEq, Repr

/-- Page oracles for the list endpoints swept during initialisation. -/
structure AmoEnv where
  pipelinesPages : Nat → PageResp PipelineEntry
  usersPages : Nat → PageResp NamedEntry
  leadFieldsPages : Nat → PageResp NamedEntry
  companyFieldsPages : Nat → PageResp NamedEntry

/-- The name-to-id maps cached on the client (client.py lines 20-25, 37-42).
Company custom-field entries hold `Option Nat` values because lines 184-187
store a possibly-`None` lookup result under the phone and email names. -/
structure IdMaps where
  pipelines_ids : Dict String Nat
  statuses_ids : Dict Nat (Dict String Nat)
  users_ids : Dict String Nat
  custom_fields_lead_ids : Dict String Nat
  custom_fields_company_ids : Dict String (Option Nat)
  task_types_ids : Dict String Nat

/-- The client state touched by initialisation: the maps plus the
`_initialized_ids` flag. -/
structure ClientState where
  maps : IdMaps
  idsLoaded : Bool

/-- A fresh client (`__init__`, client.py lines 35-42). -/
def initialState : ClientState :=
  ⟨⟨Dict.empty, Dict.empty, Dict.empty, Dict.empty, Dict.empty, Dict.empty⟩, false⟩

/-- `{s['name']: s['id'] for s in statuses}` (client.py line 170); raises on a
missing key. -/
def buildStatusDict (l : List NamedEntry) : Except Unit (Dict String Nat) :=
  l.foldlM (fun d s => do
    let n ← getKey s.name
    let i ← getKey s.id
    pure (d.insert n i)) Dict.empty

/-- Processing of one pipeline entry (client.py lines 168-170). -/
def insertPipeline (m : IdMaps) (p : PipelineEntry) : Except Unit IdMaps := do
  let n ← getKey p.name
  let i ← getKey p.id
  let sts ← buildStatusDict p.statuses
  pure { m with pipelines_ids := m.pipelines_ids.insert n i,
                statuses_ids := m.statuses_ids.insert i sts }

/-- Processing of one user or custom-field entry (client.py lines 172-182). -/
def insertNamed (d : Dict String Nat) (u : NamedEntry) : Except Unit (Dict String Nat) := do
  let n ← getKey u.name
  let i ← getKey u.id
  pure (d.insert n i)

/-- Processing of one company custom-field entry (values wrapped in `some`). -/
def insertCompanyField (d : Dict String (Option Nat)) (cf : NamedEntry) :
    Except Unit (Dict String (Option Nat)) := do
  let n ← getKey cf.name
  let i ← getKey cf.id
  pure (d.insert n (some i))

/-- `next((cf['id'] for cf in data if cf['name'] == target), None)`
(client.py lines 184-187). -/
def findFieldId (l : List NamedEntry) (target : String) : Option Nat :=
  match l.find? (fun cf => cf.name = some target) with
  | some cf => cf.id
  | none => none

/-- `_ensure_ids_initialized` (client.py lines 157-196).  Besides the raised
or returned state it reports the list of endpoints actually swept by
`_get_all_pages`.  After the four sweeps the source reads
`settings.CUSTOM_FIELD_NAME_COMPANY_PHONE` (line 184) and
`settings.CUSTOM_FIELD_NAME_COMPANY_EMAIL` (line 186); neither attribute is
declared on the shipped `Settings` class, so on the shipped program the
first read raises AttributeError, the except-branch at lines 194-196 turns
it into a raised RuntimeError, and the loaded flag at line 192 is never
reached.  Line 189 resets `task_types_ids` to the empty dict and no fifth
sweep is made (line 190 logs that the task-type endpoint is skipped). -/
def ensureIdsInit (env : AmoEnv) (settings : SettingsModel) (fuel : Nat)
    (c : ClientState) : Except Unit ClientState × List String :=
  if c.idsLoaded then (.ok c, [])
  else
    let pipelinesData := (getAllPages env.pipelinesPages fuel).1
    match pipelinesData.foldlM insertPipeline c.maps with
    | .error e => (.error e, ["/leads/pipelines"])
    | .ok m1 =>
      let usersData := (getAllPages env.usersPages fuel).1
      match usersData.foldlM insertNamed m1.users_ids with
      | .error e => (.error e, ["/leads/pipelines", "/users"])
      | .ok users =>
        let leadFieldsData := (getAllPages env.leadFieldsPages fuel).1
        match leadFieldsData.foldlM insertNamed m1.custom_fields_lead_ids with
        | .error e => (.error e, ["/leads/pipelines", "/users", "/leads/custom_fields"])
        | .ok leadFields =>
          let companyFieldsData := (getAllPages env.companyFieldsPages fuel).1
          match companyFieldsData.foldlM insertCompanyField m1.custom_fields_company_ids with
          | .error e => (.error e,
              ["/leads/pipelines", "/users", "/leads/custom_fields", "/companies/custom_fields"])
          | .ok companyFields =>
            match getKey settings.CUSTOM_FIELD_NAME_COMPANY_PHONE with
            | .error e => (.error e,
                ["/leads/pipelines", "/users", "/leads/custom_fields", "/companies/custom_fields"])
            | .ok phoneName =>
              let companyFields2 :=
                companyFields.insert phoneName (findFieldId companyFieldsData phoneName)
              match getKey settings.CUSTOM_FIELD_NAME_COMPANY_EMAIL with
              | .error e => (.error e,
                  ["/leads/pipelines", "/users", "/leads/custom_fields", "/companies/custom_fields"])
              | .ok emailName =>
                let companyFields3 :=
                  companyFields2.insert emailName (findFieldId companyFieldsData emailName)
                (.ok ⟨{ m1 with users_ids := users,
                                custom_fields_lead_ids := leadFields,
                                custom_fields_company_ids := companyFields3,
                                task_types_ids := Dict.empty }, true⟩,
                 ["/leads/pipelines", "/users", "/leads/custom_fields", "/companies/custom_fields"])

/-- A catalog entry carrying both keys the source reads. -/
def wfNamed (e : NamedEntry) : Bool := e.name.isSome && e.id.isSome

/-- A pipeline entry carrying both keys, with well-formed nested statuses. -/
def wfPipeline (p : PipelineEntry) : Bool :=
  p.name.isSome && p.id.isSome && p.statuses.all wfNamed

theorem okBind {ε α β : Type} (a : α) (f : α → Except ε β) :
    (Except.ok a >>= f : Except ε β) = f a := rfl

theorem foldlM_ok {β γ : Type} (f : γ → β → Except Unit γ) (w : β → Bool)
    (hf : ∀ g b, w b = true → ∃ g', f g b = .ok g') :
    ∀ l : List β, l.all w = true → ∀ g, ∃ g', l.foldlM f g = .ok g' := by
  intro l
  induction l with
  | nil => intro _ g; exact ⟨g, rfl⟩
  | cons b rest ih =>
    intro hall g
    simp only [List.all_cons, Bool.and_eq_true] at hall
    obtain ⟨g1, hg1⟩ := hf g b hall.1
    obtain ⟨g2, hg2⟩ := ih hall.2 g1
    refine ⟨g2, ?_⟩
    simp only [List.foldlM_cons, hg1, okBind]
    exact hg2

theorem insertNamed_ok (d : Dict String Nat) (u : NamedEntry) (h : wfNamed u = true) :
    ∃ d', insertNamed d u = .ok d' := by
  obtain ⟨n, hn⟩ : ∃ n, u.name = some n := by
    simp [wfNamed, Option.isSome_iff_exists] at h; exact h.1
  obtain ⟨i, hi⟩ : ∃ i, u.id = some i := by
    simp [wfNamed, Option.isSome_iff_exists] at h; exact h.2
  exact ⟨d.insert n i, by simp [insertNamed, hn, hi, getKey, okBind]⟩

theorem insertCompanyField_ok (d : Dict String (Option Nat)) (u : NamedEntry)
    (h : wfNamed u = true) : ∃ d', insertCompanyField d u = .ok d' := by
  obtain ⟨n, hn⟩ : ∃ n, u.name = some n := by
    simp [wfNamed, Option.isSome_iff_exists] at h; exact h.1
  obtain ⟨i, hi⟩ : ∃ i, u.id = some i := by
    simp [wfNamed, Option.isSome_iff_exists] at h; exact h.2
  exact ⟨d.insert n (some i), by simp [insertCompanyField, hn, hi, getKey, okBind]⟩

theorem buildStatusDict_ok (l : List NamedEntry) (h : l.all wfNamed = true) :
    ∃ d, buildStatusDict l = .ok d := by
  unfold buildStatusDict
  refine foldlM_ok _ wfNamed ?_ l h Dict.empty
  intro d s hs
  obtain ⟨n, hn⟩ : ∃ n, s.name = some n := by
    simp [wfNamed, Option.isSome_iff_exists] at hs; exact hs.1
  obtain ⟨i, hi⟩ : ∃ i, s.id = some i := by
    simp [wfNamed, Option.isSome_iff_exists] at hs; exact hs.2
  exact ⟨d.insert n i, by simp [hn, hi, getKey, okBind]⟩

theorem insertPipeline_ok (m : IdMaps) (p : PipelineEntry) (h : wfPipeline p = true) :
    ∃ m', insertPipeline m p = .ok m' := by
  simp only [wfPipeline, Bool.and_eq_true] at h
  obtain ⟨⟨hn, hi⟩, hsts⟩ := h
  obtain ⟨n, hn⟩ : ∃ n, p.name = some n := Option.isSome_iff_exists.mp hn
  obtain ⟨i, hi⟩ : ∃ i, p.id = some i := Option.isSome_iff_exists.mp hi
  obtain ⟨d, hd⟩ := buildStatusDict_ok p.statuses hsts
  refine ⟨{ m with pipelines_ids := m.pipelines_ids.insert n i,
                   statuses_ids := m.statuses_ids.insert i d }, ?_⟩
  simp [insertPipeline, hn, hi, hd, getKey, okBind]

/-- Helper for the fresh-call behaviour of `ensureIdsInit`: with the
company-phone settings attribute undeclared (the shipped configuration) a
call on an unloaded client always ends in a raise — either one of the four
folds raises on a malformed entry, or, when every fetched entry is well
formed, the settings read after the sweeps raises — and when the fetched
entries are well formed the four sweeps have all been issued by then. -/
theorem initFreshAux (env : AmoEnv) (settings : SettingsModel) (fuel : Nat)
    (c : ClientState)
    (hph : settings.CUSTOM_FIELD_NAME_COMPANY_PHONE = none)
    (hld : c.idsLoaded = false) :
    (ensureIdsInit env settings fuel c).1 = Except.error () ∧
    ((getAllPages env.pipelinesPages fuel).1.all wfPipeline = true →
     (getAllPages env.usersPages fuel).1.all wfNamed = true →
     (getAllPages env.leadFieldsPages fuel).1.all wfNamed = true →
     (getAllPages env.companyFieldsPages fuel).1.all wfNamed = true →
     (ensureIdsInit env settings fuel c).2 =
       ["/leads/pipelines", "/users", "/leads/custom_fields", "/companies/custom_fields"]) := by
  unfold ensureIdsInit
  simp only [hld, Bool.false_eq_true, if_false]
  cases hf1 : List.foldlM insertPipeline c.maps (getAllPages env.pipelinesPages fuel).1 with
  | error e =>
    refine ⟨rfl, ?_⟩
    intro w1 _ _ _
    obtain ⟨m1, hm1⟩ := foldlM_ok insertPipeline wfPipeline
      (fun m p hp => insertPipeline_ok m p hp) _ w1 c.maps
    rw [hf1] at hm1
    simp at hm1
  | ok m1 =>
    dsimp only
    cases hf2 : List.foldlM insertNamed m1.users_ids (getAllPages env.usersPages fuel).1 with
    | error e =>
      refine ⟨rfl, ?_⟩
      intro _ w2 _ _
      obtain ⟨du, hdu⟩ := foldlM_ok insertNamed wfNamed
        (fun d u hu => insertNamed_ok d u hu) _ w2 m1.users_ids
      rw [hf2] at hdu
      simp at hdu
    | ok du =>
      dsimp only
      cases hf3 : List.foldlM insertNamed m1.custom_fields_lead_ids
          (getAllPages env.leadFieldsPages fuel).1 with
      | error e =>
        refine ⟨rfl, ?_⟩
        intro _ _ w3 _
        obtain ⟨dl, hdl⟩ := foldlM_ok insertNamed wfNamed
          (fun d u hu => insertNamed_ok d u hu) _ w3 m1.custom_fields_lead_ids
        rw [hf3] at hdl
        simp at hdl
      | ok dl =>
        dsimp only
        cases hf4 : List.foldlM insertCompanyField m1.custom_fields_company_ids
            (getAllPages env.companyFieldsPages fuel).1 with
        | error e => exact ⟨rfl, fun _ _ _ _ => rfl⟩
        | ok dc =>
          dsimp only
          rw [hph]
          exact ⟨rfl, fun _ _ _ _ => rfl⟩

/-- Claim C5: any failure during the directory-initialisation operation —
including a fetch error partway through one of its paginated sweeps —
causes the operation to raise an error to the caller rather than complete
with an incomplete name-to-id map.  This holds on the shipped program in a
stronger form: EVERY call on an unloaded client raises (a RuntimeError
wrapping the AttributeError from the undeclared company-phone settings
attribute, client.py line 184, even when all sweeps succeed), so the
operation can never complete — with an incomplete map or otherwise — and
the partial data gathered by a truncated sweep never escapes. -/
theorem ensureIdsInit_raises_never_partial (env : AmoEnv) (settings : SettingsModel)
    (fuel : Nat) (c : ClientState)
    (hph : settings.CUSTOM_FIELD_NAME_COMPANY_PHONE = none)
    (hld : c.idsLoaded = false) :
    (ensureIdsInit env settings fuel c).1 = Except.error () :=
  (initFreshAux env settings fuel c hph hld).1

/-- Page oracle for the C5 scenario: the pipelines sweep serves one entry on
page 1 and promises a next page, but fetching page 2 errors; the remaining
sweeps are empty. -/
def envC5 : AmoEnv where
  pipelinesPages := fun p =>
    if p = 1 then .ok ⟨some (.arr [⟨some "P1", some 1, []⟩]), true⟩
    else .fetchError
  usersPages := fun _ => .ok ⟨some (.arr []), false⟩
  leadFieldsPages := fun _ => .ok ⟨some (.arr []), false⟩
  companyFieldsPages := fun _ => .ok ⟨some (.arr []), false⟩

theorem ensureIdsInit_raises_witness :
    (ensureIdsInit envC5 shippedSettings 5 initialState).1 = Except.error () :=
  ensureIdsInit_raises_never_partial envC5 shippedSettings 5 initialState rfl rfl

/-- Claim C6 (amended): the function is guarded by the internal loaded
flag — a call on a client whose flag is already set performs no fetches and
changes nothing — but on the shipped program the flag is never set: a call
on an unloaded client always raises, and when the fetched entries are well
formed it has by then issued exactly FOUR paginated sweeps, in order:
pipelines-with-nested-stages, users, lead custom fields, company custom
fields.  No task-types sweep exists (client.py lines 189-190 reset
`task_types_ids` to the empty dict and skip the endpoint), and no map
survives the call, because the undeclared company-phone settings attribute
raises right after the sweeps (line 184), before the flag at line 192. -/
theorem ensureIdsInit_four_sweeps_then_raise (env : AmoEnv) (settings : SettingsModel)
    (fuel : Nat) (c : ClientState)
    (hph : settings.CUSTOM_FIELD_NAME_COMPANY_PHONE = none) :
    (c.idsLoaded = true → ensureIdsInit env settings fuel c = (.ok c, [])) ∧
    (c.idsLoaded = false →
      (ensureIdsInit env settings fuel c).1 = Except.error () ∧
      ((getAllPages env.pipelinesPages fuel).1.all wfPipeline = true →
       (getAllPages env.usersPages fuel).1.all wfNamed = true →
       (getAllPages env.leadFieldsPages fuel).1.all wfNamed = true →
       (getAllPages env.companyFieldsPages fuel).1.all wfNamed = true →
       (ensureIdsInit env settings fuel c).2 =
         ["/leads/pipelines", "/users", "/leads/custom_fields", "/companies/custom_fields"])) := by
  constructor
  · intro h
    unfold ensureIdsInit
    simp [h]
  · intro h
    exact initFreshAux env settings fuel c hph h

/-- Page oracle for the C6 scenario: every endpoint serves exactly one page
with one well-formed entry. -/
def envC6 : AmoEnv where
  pipelinesPages := fun _ => .ok ⟨some (.arr [⟨some "P", some 1, [⟨some "S", some 2⟩]⟩]), false⟩
  usersPages := fun _ => .ok ⟨some (.arr [⟨some "U", some 3⟩]), false⟩
  leadFieldsPages := fun _ => .ok ⟨some (.arr [⟨some "F", some 4⟩]), false⟩
  companyFieldsPages := fun _ => .ok ⟨some (.arr [⟨some "G", some 5⟩]), false⟩

/-- Claim C6 is false on the code: even with every endpoint healthy, a first
call issues only FOUR paginated sweeps — there is no task-types sweep — and
then raises (the undeclared company-phone settings attribute, client.py
line 184), so far from populating all five name-to-id maps it populates
none durably and never sets the loaded flag. -/
theorem ensureIdsInit_no_task_type_sweep :
    (ensureIdsInit envC6 shippedSettings 2 initialState).2 =
      ["/leads/pipelines", "/users", "/leads/custom_fields", "/companies/custom_fields"] ∧
    (ensureIdsInit envC6 shippedSettings 2 initialState).1 = Except.error () := by
  constructor
  · rfl
  · rfl

theorem ensureIdsInit_sweeps_witness :
    ensureIdsInit envC6 shippedSettings 2 (ClientState.mk initialState.maps true) =
      (Except.ok (ClientState.mk initialState.maps true), []) ∧
    (ensureIdsInit envC6 shippedSettings 2 initialState).1 = Except.error () ∧
    (ensureIdsInit envC6 shippedSettings 2 initialState).2 =
      ["/leads/pipelines", "/users", "/leads/custom_fields", "/companies/custom_fields"] := by
  have h1 := (ensureIdsInit_four_sweeps_then_raise envC6 shippedSettings 2
    (ClientState.mk initialState.maps true) rfl).1 rfl
  have h2 := (ensureIdsInit_four_sweeps_then_raise envC6 shippedSettings 2
    initialState rfl).2 rfl
  exact ⟨h1, h2.1, h2.2 (by decide) (by decide) (by decide) (by decide)⟩

/-! ## Lead payloads (`AmoClient.create_lead` / `AmoClient.update_lead`) -/

/-- Python truthiness of an optional integer (`if responsible_user_id:`):
`None` and `0` are falsy. -/
def optTruthy : Option Nat → Bool
  | none => false
  | some n => !(n == 0)

/-- Python truthiness of an optional string (`if name:`): `None` and the
empty string are falsy. -/
def strTruthy : Option String → Bool
  | none => false
  | some s => !(s == "")

/-- Python `int()` applied to a float: truncation toward zero, as an
operation on the rational model of the float. -/
def pyInt (q : ℚ) : ℤ := q.num.sign * (q.num.natAbs / q.den : ℕ)

/-- The lead-creation payload item assembled at client.py lines 461-470
(custom fields are assembled separately and are not modelled here). -/
structure LeadCreatePayload where
  name : String
  price : ℤ
  pipeline_id : Nat
  status_id : Nat
  responsible_user_id : Option Nat
  companyEmbedded : Option Nat
deriving DecidableEq, Repr

/-- `create_lead` payload construction: `"price": int(price)`, optional
fields added only when truthy. -/
def createLeadPayload (name : String) (price : ℚ) (pipelineId statusId : Nat)
    (responsibleUserId companyId : Option Nat) : LeadCreatePayload :=
  { name := name,
    price := pyInt price,
    pipeline_id := pipelineId,
    status_id := statusId,
    responsible_user_id := if optTruthy responsibleUserId then responsibleUserId else none,
    companyEmbedded := if optTruthy companyId then companyId else none }

/-- The lead-update payload item assembled at client.py lines 517-525. -/
structure LeadUpdatePayload where
  id : Nat
  name : Option String
  price : Option ℤ
  status_id : Option Nat
  responsible_user_id : Option Nat
deriving DecidableEq, Repr

/-- `update_lead` payload construction: the price key is set exactly when the
argument is not `None` (an explicit `is not None` check, not truthiness, at
line 520), and it is set to `int(price)`. -/
def updateLeadPayload (leadId : Nat) (name : Option String) (price : Option ℚ)
    (statusId responsibleUserId : Option Nat) : LeadUpdatePayload :=
  { id := leadId,
    name := if strTruthy name then name else none,
    price := price.map pyInt,
    status_id := if optTruthy statusId then statusId else none,
    responsible_user_id := if optTruthy responsibleUserId then responsibleUserId else none }

theorem pyInt_neg (q : ℚ) : pyInt (-q) = -pyInt q := by
  unfold pyInt
  rw [Rat.neg_num]
  rw [show (-q).den = q.den from rfl]
  rw [Int.sign_neg, Int.natAbs_neg]
  ring

theorem pyInt_of_nonneg (q : ℚ) (h : 0 ≤ q) : pyInt q = ⌊q⌋ := by
  rcases lt_or_eq_of_le h with hpos | hzero
  · have hnum : 0 < q.num := Rat.num_pos.mpr hpos
    have hfloor : ⌊q⌋ = q.num / (q.den : ℤ) := by
      conv_lhs => rw [← Rat.num_div_den q]
      exact Rat.floor_intCast_div_natCast q.num q.den
    have habs : q.num = (q.num.natAbs : ℤ) := (Int.natAbs_of_nonneg (le_of_lt hnum)).symm
    rw [pyInt, Int.sign_eq_one_iff_pos.mpr hnum, one_mul, hfloor]
    rw [habs]
    exact_mod_cast (Int.ofNat_ediv q.num.natAbs q.den).symm
  · rw [← hzero]
    simp [pyInt]

theorem pyInt_of_nonpos (q : ℚ) (h : q ≤ 0) : pyInt q = ⌈q⌉ := by
  have hneg : 0 ≤ -q := by linarith
  have := pyInt_of_nonneg (-q) hneg
  rw [pyInt_neg, Int.floor_neg] at this
  omega

/-- Claim C9: for every call to `create_lead` with any price, and every call
to `update_lead` with a non-None price, the price placed in the outgoing
payload is `int(price)` — truncation toward zero: the floor for nonnegative
prices and the ceiling for nonpositive ones, so fractional budget values
lose their fractional part toward zero before being sent. -/
theorem payload_price_truncates (name : String) (q : ℚ) (pid sid lid : Nat)
    (resp comp stat : Option Nat) (uname : Option String) :
    (createLeadPayload name q pid sid resp comp).price = pyInt q ∧
    (updateLeadPayload lid uname (some q) stat resp).price = some (pyInt q) ∧
    (0 ≤ q → pyInt q = ⌊q⌋) ∧ (q ≤ 0 → pyInt q = ⌈q⌉) := by
  refine ⟨rfl, rfl, pyInt_of_nonneg q, pyInt_of_nonpos q⟩

theorem payload_price_truncates_witness :
    (createLeadPayload "Acme" (5/2) 7 8 none none).price = pyInt (5/2) ∧
    (0 : ℚ) ≤ 5/2 ∧ pyInt (5/2) = ⌊(5/2 : ℚ)⌋ ∧ pyInt (5/2) = 2 := by
  have h := payload_price_truncates "Acme" (5/2) 7 8 0 none none none none
  refine ⟨h.1, by norm_num, h.2.2.1 (by norm_num), ?_⟩
  norm_num [pyInt]
  decide

/-! ## Record processing (`_handle_lead_processing`, amocrm_processor.py) -/

/-- The fields of a parsed purchase row (schemas.py `DBStatePurchase`) that
the processor control flow reads.  Fields consumed only by the note renderer
(dates, contact names, SMP flags, ...) are not listed: the renderer is
passed as an opaque deterministic function below.  Note the schema declares
NO `time_zone` field, although the processor reads one (see
`dbStateTimeZone`). -/
structure DBStatePurchase where
  purchase_number : String
  eis_url : Option String
  winner_name : Option String
  inn : Option String
  contract_securing : Option ℚ
  phone_1 : Option String
  phone_2 : Option String
  phone_3 : Option String
  email_1 : Option String
  email_2 : Option String
  email_3 : Option String
deriving DecidableEq, Repr

/-- A company as returned by the remote search or creation: the two fields
the processor reads, each via `.get` (so possibly absent). -/
structure Company where
  id : Option Nat
  responsible_user_id : Option Nat
deriving DecidableEq, Repr

/-- A lead as returned by the remote search or creation: the fields the
processor reads via `.get` (price defaults to `0.0` when the key is
missing, amocrm_processor.py line 235). -/
structure Lead where
  id : Option Nat
  responsible_user_id : Option Nat
  price : Option ℚ
deriving DecidableEq, Repr

/-- One remote call issued while processing a record, with the arguments
the processor passes (custom-field payloads and the task deadline are not
recorded). -/
inductive RemoteCall where
  | search_companies_by_inn (inn : String)
  | create_company (name : String) (inn : Option String)
      (phones emails : List String) (responsible : Option Nat)
  | search_leads_by_name (pipelineId : Nat) (purchaseNumber : String)
  | create_lead (name : String) (price : ℚ) (pipelineId statusId : Nat)
      (responsible : Option Nat) (companyId : Option Nat)
  | update_lead (leadId : Nat) (price : ℚ)
  | get_linked_companies (leadId : Nat)
  | link_company_to_lead (leadId companyId : Nat)
  | add_note_to_lead (leadId : Nat) (text : String)
  | create_task (entityId : Nat) (responsible : Nat) (text : String)
deriving DecidableEq, Repr

/-- Responses the remote CRM gives to the calls of one record's processing;
each call site runs at most once per record, so one response per site. -/
structure ProcEnv where
  searchCompanies : List Company
  createCompanyResp : Option Company
  searchLeads : List Lead
  createLeadResp : Option Lead
  linkedCompanies : List Company
deriving DecidableEq, Repr

/-- `company_responsible_user_id in exclude_user_ids_for_creation_filter`
(line 201): a `None` responsible is never a member of the id list. -/
def inExclude (r : Option Nat) (exclude : List Nat) : Bool :=
  match r with
  | some v => exclude.contains v
  | none => false

/-- The truthy-filtered phone/email comprehensions of lines 206-207. -/
def presentStrs (l : List (Option String)) : List String :=
  l.filterMap fun o => if strTruthy o then o else none

/-- Result of the company block (lines 190-222): either the whole record
processing returns early (`ret`), or it continues with
`company_id_to_link` and `company_responsible_user_id` (`cont`). -/
inductive CompanyStepRes where
  | ret (calls : List RemoteCall)
  | cont (calls : List RemoteCall) (companyId : Option Nat) (companyResp : Option Nat)
deriving DecidableEq, Repr

/-- The company block, lines 190-222: skipped entirely when `inn` is falsy;
otherwise search by inn, then either adopt the first hit (returning early if
its responsible is excluded) or create a company (returning early if
creation fails). -/
def companyStep (env : ProcEnv) (pd : DBStatePurchase) (excludeUserIds : List Nat)
    (unsorted : Option Nat) : CompanyStepRes :=
  if strTruthy pd.inn then
    match env.searchCompanies with
    | ci :: _ =>
      if inExclude ci.responsible_user_id excludeUserIds then
        .ret [.search_companies_by_inn (pd.inn.getD "")]
      else
        .cont [.search_companies_by_inn (pd.inn.getD "")] ci.id ci.responsible_user_id
    | [] =>
      let ccall := RemoteCall.create_company (pd.winner_name.getD "") pd.inn
          (presentStrs [pd.phone_1, pd.phone_2, pd.phone_3])
          (presentStrs [pd.email_1, pd.email_2, pd.email_3]) unsorted
      match env.createCompanyResp with
      | some c => .cont [.search_companies_by_inn (pd.inn.getD ""), ccall]
          c.id c.responsible_user_id
      | none => .ret [.search_companies_by_inn (pd.inn.getD ""), ccall]
  else .cont [] none none

/-- Fixed task text (line 109). -/
def taskText : String := "Пришло обновление из базы победителей."

/-- Who `_create_task` (lines 108-131) assigns the follow-up task to:
`none` means the function returns without creating a task (responsible
falsy, line 112-114, or responsible is the unsorted sentinel while the
coordinator id is unresolved, lines 125-127). -/
def taskAssignee (respOpt : Option Nat) (isNew : Bool) (unsorted popova : Option Nat) :
    Option Nat :=
  if !(optTruthy respOpt) then none
  else if isNew && respOpt == unsorted && optTruthy popova then popova
  else if respOpt == unsorted then (if optTruthy popova then popova else none)
  else respOpt

/-- The task block: emits the `create_task` call unless `_create_task`
returned early. -/
def createTaskStep (leadId : Nat) (respOpt : Option Nat) (isNew : Bool)
    (unsorted popova : Option Nat) : List RemoteCall :=
  match taskAssignee respOpt isNew unsorted popova with
  | none => []
  | some a => [.create_task leadId a taskText]

/-- The company-linking block, lines 281-293: runs only when both the lead
id and the company id are truthy; fetches the linked companies and links
only when the company id is not already among them. -/
def linkStep (env : ProcEnv) (lid clink : Option Nat) : List RemoteCall :=
  if optTruthy lid && optTruthy clink then
    let l := lid.getD 0
    let c := clink.getD 0
    let linkedIds := env.linkedCompanies.map fun comp => comp.id
    RemoteCall.get_linked_companies l ::
      (if clink ∈ linkedIds then [] else [.link_company_to_lead l c])
  else []

/-- The note-and-task block, lines 295-310: runs only when the lead id is
truthy; the note text is the rendering of the record. -/
def noteTaskStep (_env : ProcEnv) (render : DBStatePurchase → String)
    (pd : DBStatePurchase) (lid : Option Nat) (leadInfo : Lead) (isNew : Bool)
    (popova unsorted : Option Nat) : List RemoteCall :=
  if optTruthy lid then
    RemoteCall.add_note_to_lead (lid.getD 0) (render pd) ::
      createTaskStep (lid.getD 0) leadInfo.responsible_user_id isNew unsorted popova
  else []

/-- Tail of processing for a record matched to an existing lead (lines
231-240 and 270-310): update the budget when it changed, then link, note,
task. -/
def matchedTail (env : ProcEnv) (render : DBStatePurchase → String)
    (pd : DBStatePurchase) (cs : ℚ) (lead : Lead) (clink : Option Nat)
    (popova unsorted : Option Nat) : List RemoteCall :=
  (if optTruthy lead.id && !(cs == lead.price.getD 0) then
      [RemoteCall.update_lead (lead.id.getD 0) cs]
   else [])
  ++ linkStep env lead.id clink
  ++ noteTaskStep env render pd lead.id lead false popova unsorted

/-- `purchase_data.time_zone` (amocrm_processor.py line 258): the
`DBStatePurchase` schema declares no such field, and a pydantic model
raises AttributeError on an undeclared attribute read, so this access
raises unconditionally. -/
def dbStateTimeZone : Except Unit String := .error ()

/-- The custom-field argument list built at amocrm_processor.py lines
254-258 while calling `create_lead`.  In evaluation order it reads the two
declared settings attributes (ИНН and the purchase link, which never
raise and are not modelled), then `settings.CUSTOM_FIELD_NAME_PURCHASE_NUMBER`
(line 257), then `settings.CUSTOM_FIELD_NAME_TIME_ZONE` and
`purchase_data.time_zone` (line 258).  The chain raises at the first
undeclared attribute; the record attribute is undeclared on every
instance, so the construction never succeeds and `create_lead` is never
invoked from this call site. -/
def newLeadArgs (settings : SettingsModel) : Except Unit Unit := do
  let _ ← getKey settings.CUSTOM_FIELD_NAME_PURCHASE_NUMBER
  let _ ← getKey settings.CUSTOM_FIELD_NAME_TIME_ZONE
  let _ ← dbStateTimeZone
  pure ()

/-- Tail of processing for an unmatched record (lines 241-268 and 281-310):
building the `create_lead` arguments raises (see `newLeadArgs`) before the
call can be made; the rest of the branch — create the lead with responsible
defaulting to the unsorted sentinel, abort on creation failure, then link,
note, task — is translated faithfully but is dead code on every settings
and record instance. -/
def newLeadTail (env : ProcEnv) (render : DBStatePurchase → String)
    (settings : SettingsModel) (pd : DBStatePurchase) (cs : ℚ)
    (pipelineId targetStatusId : Nat) (clink cresp : Option Nat)
    (popova unsorted : Option Nat) : Except Unit Unit × List RemoteCall :=
  match newLeadArgs settings with
  | .error e => (.error e, [])
  | .ok _ =>
    let newResp := if optTruthy cresp then cresp else unsorted
    (.ok (),
      RemoteCall.create_lead (pd.winner_name.getD "") cs pipelineId targetStatusId
          newResp clink ::
        (match env.createLeadResp with
         | none => []
         | some lead =>
           linkStep env lead.id clink ++
             noteTaskStep env render pd lead.id lead true popova unsorted))

/-- `_handle_lead_processing` (lines 148-310): the outcome of processing
one record (`.ok ()` = the function returned, `.error ()` = it raised and
the per-record handler at amocrm_processor.py line 353 caught the
exception) together with the trace of remote calls issued before that.
Normal early returns: missing or below-minimum budget (lines 179-181),
falsy winner name (184-186), excluded company manager (201-203),
company-creation failure (220-222), lead-creation failure (266-268).
Raises: the lead search at line 224 first reads
`settings.CUSTOM_FIELD_NAME_PURCHASE_NUMBER` (client.py line 391) and
raises when it is undeclared — the shipped configuration — before issuing
any search request; past that attribute read, the callee behaviour
(field-id lookup, pagination, client-side filtering) is condensed to the
`searchLeads` oracle, a path the shipped program never reaches. -/
def handle_lead_processing (env : ProcEnv) (render : DBStatePurchase → String)
    (settings : SettingsModel) (pd : DBStatePurchase)
    (pipelineId targetStatusId : Nat) (excludeUserIds : List Nat)
    (popova unsorted : Option Nat) : Except Unit Unit × List RemoteCall :=
  match pd.contract_securing with
  | none => (.ok (), [])
  | some cs =>
    if cs < settings.MIN_LEAD_BUDGET then (.ok (), [])
    else if !(strTruthy pd.winner_name) then (.ok (), [])
    else
      match companyStep env pd excludeUserIds unsorted with
      | .ret calls => (.ok (), calls)
      | .cont calls1 clink cresp =>
        match getKey settings.CUSTOM_FIELD_NAME_PURCHASE_NUMBER with
        | .error e => (.error e, calls1)
        | .ok _ =>
          let calls2 := calls1 ++ [RemoteCall.search_leads_by_name pipelineId pd.purchase_number]
          match env.searchLeads with
          | lead :: _ =>
            (.ok (), calls2 ++ matchedTail env render pd cs lead clink popova unsorted)
          | [] =>
            let tail := newLeadTail env render settings pd cs pipelineId targetStatusId
                clink cresp popova unsorted
            (tail.1, calls2 ++ tail.2)

/-- Is this call the budget update `update_lead`? -/
def isUpdateCall : RemoteCall → Bool
  | .update_lead _ _ => true
  | _ => false

/-- Is this call part of the company workflow (search, create, read links,
link)? -/
def isCompanyCall : RemoteCall → Bool
  | .search_companies_by_inn _ => true
  | .create_company _ _ _ _ _ => true
  | .get_linked_companies _ => true
  | .link_company_to_lead _ _ => true
  | _ => false

/-- The note texts a trace posts, in order. -/
def noteTexts (tr : List RemoteCall) : List String :=
  tr.filterMap fun c => match c with
    | .add_note_to_lead _ t => some t
    | _ => none

/-- The CRM note store of the lead after a trace runs against it:
`add_note_to_lead` unconditionally POSTs (client.py lines 551-578), and the
remote note collection is append-only, so every posted note is appended. -/
def applyNotes (notes : List String) (tr : List RemoteCall) : List String :=
  tr.foldl (fun ns c => match c with
    | .add_note_to_lead _ t => ns ++ [t]
    | _ => ns) notes

theorem applyNotes_eq (tr : List RemoteCall) :
    ∀ notes, applyNotes notes tr = notes ++ noteTexts tr := by
  induction tr with
  | nil => intro notes; simp [applyNotes, noteTexts]
  | cons c rest ih =>
    intro notes
    have hstep : applyNotes notes (c :: rest) = applyNotes (applyNotes notes [c]) rest := rfl
    rw [hstep, ih]
    have hsplit : noteTexts (c :: rest) = noteTexts [c] ++ noteTexts rest := by
      cases c <;> simp [noteTexts, List.filterMap_cons]
    have hone : applyNotes notes [c] = notes ++ noteTexts [c] := by
      cases c <;> simp [applyNotes, noteTexts, List.filterMap_cons]
    rw [hsplit, hone]
    simp [List.append_assoc]

/-- Claim C8: a record whose `contract_securing` is null or below the
configured minimum budget is dropped by the pre-filter at lines 179-181,
before any remote call: its processing returns normally with an empty
trace, so in particular no company search, company creation, lead search,
lead creation or update, note, or task call happens. -/
theorem skip_below_min_budget (env : ProcEnv) (render : DBStatePurchase → String)
    (settings : SettingsModel) (pd : DBStatePurchase) (pid sid : Nat) (ex : List Nat)
    (pop uns : Option Nat)
    (h : pd.contract_securing = none ∨
         ∃ c, pd.contract_securing = some c ∧ c < settings.MIN_LEAD_BUDGET) :
    handle_lead_processing env render settings pd pid sid ex pop uns =
      (Except.ok (), []) := by
  unfold handle_lead_processing
  rcases h with h | ⟨c, hc, hlt⟩
  · rw [h]
  · rw [hc]
    simp [hlt]

/-- Environment with no remote state at all. -/
def envTriv : ProcEnv := ⟨[], none, [], none, []⟩

/-- A fixed deterministic note renderer for concrete scenarios, standing in
for `generate_note_text_for_win`. -/
def renderFix : DBStatePurchase → String := fun r => "note:" ++ r.purchase_number

/-- A record whose budget (50) is below the default minimum (100000). -/
def recC8 : DBStatePurchase :=
  ⟨"PN-8", none, some "Winner", some "7701", some 50, none, none, none, none, none, none⟩

theorem skip_below_min_budget_witness :
    handle_lead_processing envTriv renderFix shippedSettings recC8 10 20 []
      (some 5) (some 6) = (Except.ok (), []) :=
  skip_below_min_budget envTriv renderFix shippedSettings recC8 10 20 [] (some 5) (some 6)
    (Or.inr ⟨50, rfl, by norm_num [shippedSettings]⟩)

/-- The calls a company-step result carries, whichever way it ended. -/
def companyCalls : CompanyStepRes → List RemoteCall
  | .ret c => c
  | .cont c _ _ => c

theorem companyStep_calls_company (env : ProcEnv) (pd : DBStatePurchase)
    (ex : List Nat) (uns : Option Nat) :
    ∀ c ∈ companyCalls (companyStep env pd ex uns), isCompanyCall c = true := by
  unfold companyStep
  by_cases hinn : strTruthy pd.inn
  · simp only [hinn, if_true]
    cases env.searchCompanies with
    | cons ci rest =>
      by_cases hex : inExclude ci.responsible_user_id ex <;>
        simp [hex, companyCalls, isCompanyCall]
    | nil =>
      cases env.createCompanyResp <;> simp [companyCalls, isCompanyCall]
  · simp [hinn, companyCalls]

theorem isCompanyCall_not_update (c : RemoteCall) (h : isCompanyCall c = true) :
    isUpdateCall c = false := by
  cases c <;> simp_all [isCompanyCall, isUpdateCall]

/-- With the purchase-number settings attribute undeclared (the shipped
configuration), every call a record's processing manages to issue belongs
to the company workflow: the run either returns during the filters or the
company block, or raises at the lead search — before the search request,
the lead creation or update, the note and the task. -/
theorem handle_trace_company (env : ProcEnv) (render : DBStatePurchase → String)
    (settings : SettingsModel) (pd : DBStatePurchase) (pid sid : Nat) (ex : List Nat)
    (pop uns : Option Nat)
    (hattr : settings.CUSTOM_FIELD_NAME_PURCHASE_NUMBER = none) :
    ∀ c ∈ (handle_lead_processing env render settings pd pid sid ex pop uns).2,
      isCompanyCall c = true := by
  intro c hc
  unfold handle_lead_processing at hc
  cases hpd : pd.contract_securing with
  | none =>
    rw [hpd] at hc
    simp at hc
  | some cs =>
    rw [hpd] at hc
    dsimp only at hc
    by_cases hmin : cs < settings.MIN_LEAD_BUDGET
    · simp [hmin] at hc
    · rw [if_neg hmin] at hc
      by_cases hw : strTruthy pd.winner_name
      · simp only [hw, Bool.not_true, Bool.false_eq_true, if_false] at hc
        cases hcomp : companyStep env pd ex uns with
        | ret calls =>
          rw [hcomp] at hc
          dsimp only at hc
          have hcal := companyStep_calls_company env pd ex uns c
          rw [hcomp] at hcal
          exact hcal hc
        | cont calls1 clink cresp =>
          rw [hcomp] at hc
          dsimp only at hc
          rw [hattr] at hc
          dsimp only [getKey] at hc
          have hcal := companyStep_calls_company env pd ex uns c
          rw [hcomp] at hcal
          exact hcal hc
      · simp only [Bool.not_eq_true] at hw
        simp [hw] at hc

theorem noteTexts_nil_of_company :
    ∀ tr : List RemoteCall, (∀ c ∈ tr, isCompanyCall c = true) → noteTexts tr = [] := by
  intro tr
  induction tr with
  | nil => intro _; rfl
  | cons c rest ih =>
    intro h
    have hc := h c (by simp)
    have hrest := ih fun x hx => h x (by simp [hx])
    cases c <;> simp_all [noteTexts, List.filterMap_cons, isCompanyCall]

/-- A record that would match an existing lead. -/
def recC1 : DBStatePurchase :=
  ⟨"PN-9", none, some "Acme", none, some 200000, none, none, none, none, none, none⟩

/-- Environment for `recC1`: the search oracle would report a lead (id 1,
responsible 7, stored price equal to the incoming one) — but the shipped
program raises before consulting it. -/
def envC1 : ProcEnv :=
  ⟨[], none, [⟨some 1, some 7, some 200000⟩], none, []⟩

/-- Claim C1: processing the same unchanged PurchaseRecord a second time
appends zero new notes to the lead.  On the shipped program this holds in
a degenerate form: per-record processing raises inside
`search_leads_by_name` (client.py line 391, the undeclared purchase-number
settings attribute) before any lead can be matched or created, so the
annotation step of line 297 never runs — the claimed fetch-and-compare
guard is vacuous, there being no matched or newly created lead — and NO
pass ever appends a note: the lead's note store after a repeated pass
equals the store before it. -/
theorem reprocessing_appends_no_notes (env : ProcEnv) (render : DBStatePurchase → String)
    (settings : SettingsModel) (pd : DBStatePurchase) (pid sid : Nat) (ex : List Nat)
    (pop uns : Option Nat)
    (hattr : settings.CUSTOM_FIELD_NAME_PURCHASE_NUMBER = none) :
    noteTexts (handle_lead_processing env render settings pd pid sid ex pop uns).2 = [] ∧
    ∀ notes, applyNotes
        (applyNotes notes (handle_lead_processing env render settings pd pid sid ex pop uns).2)
        (handle_lead_processing env render settings pd pid sid ex pop uns).2 = notes := by
  have hnil := noteTexts_nil_of_company _
    (handle_trace_company env render settings pd pid sid ex pop uns hattr)
  refine ⟨hnil, ?_⟩
  intro notes
  rw [applyNotes_eq, applyNotes_eq, hnil]
  simp

theorem reprocessing_appends_no_notes_witness :
    noteTexts (handle_lead_processing envC1 renderFix shippedSettings recC1 10 20 []
      (some 5) (some 6)).2 = [] ∧
    applyNotes
      (applyNotes ["prior"] (handle_lead_processing envC1 renderFix shippedSettings recC1
        10 20 [] (some 5) (some 6)).2)
      (handle_lead_processing envC1 renderFix shippedSettings recC1 10 20 []
        (some 5) (some 6)).2 = ["prior"] := by
  have h := reprocessing_appends_no_notes envC1 renderFix shippedSettings recC1 10 20 []
    (some 5) (some 6) rfl
  exact ⟨h.1, h.2 ["prior"]⟩

/-- A record carrying an incoming price of exactly 0. -/
def recC2 : DBStatePurchase :=
  ⟨"PN-2", none, some "Winner", none, some 0, none, none, none, none, none, none⟩

/-- Environment for `recC2`: the search oracle would report a lead with
nonzero stored price 5 — never consulted on the shipped program. -/
def envC2 : ProcEnv :=
  ⟨[], none, [⟨some 1, some 9, some 5⟩], none, []⟩

/-- The shipped attribute declarations with the minimum budget configured
to 0 — the harshest configuration for claim C2. -/
def minZeroSettings : SettingsModel :=
  { shippedSettings with MIN_LEAD_BUDGET := 0 }

/-- Claim C2: for every record matched to an existing lead whose stored
price is nonzero, an incoming price of 0 never triggers a price update and
the stored price is unchanged, for every configured minimum-budget value.
On the shipped program this holds in the strongest form: NO `update_lead`
call is ever issued for any record and any configured minimum budget,
because processing raises inside `search_leads_by_name` (client.py line
391) before a lead can be matched — the only path to the budget update of
lines 270-279. -/
theorem no_price_update_ever (env : ProcEnv) (render : DBStatePurchase → String)
    (settings : SettingsModel) (pd : DBStatePurchase) (pid sid : Nat) (ex : List Nat)
    (pop uns : Option Nat)
    (hattr : settings.CUSTOM_FIELD_NAME_PURCHASE_NUMBER = none) :
    (handle_lead_processing env render settings pd pid sid ex pop uns).2.filter
      isUpdateCall = [] := by
  rw [List.filter_eq_nil_iff]
  intro c hc
  simp [isCompanyCall_not_update c
    (handle_trace_company env render settings pd pid sid ex pop uns hattr c hc)]

theorem no_price_update_ever_witness :
    (handle_lead_processing envC2 renderFix minZeroSettings recC2 10 20 []
      (some 7) (some 8)).2.filter isUpdateCall = [] :=
  no_price_update_ever envC2 renderFix minZeroSettings recC2 10 20 [] (some 7) (some 8) rfl

/-- A record with budget 500000, passing every filter. -/
def recC3 : DBStatePurchase :=
  ⟨"PN-3", none, some "Winner", none, some 500000, none, none, none, none, none, none⟩

/-- Environment for `recC3`: the search oracle would report a matched lead
with stored price 300000 — never consulted on the shipped program. -/
def envC3 : ProcEnv :=
  ⟨[], none, [⟨some 1, some 9, some 300000⟩], none, []⟩

/-- Claim C3 describes a policy the source genuinely contains (lines
231-240 and 270-279: update exactly once, carrying the incoming price,
when it is nonzero and differs from the stored one) — but that code is
dead: processing `recC3`, a record passing every filter, against `envC3`,
whose oracle holds a matched lead with stored price 300000 against
incoming 500000, raises at the lead search (client.py line 391, the
undeclared `CUSTOM_FIELD_NAME_PURCHASE_NUMBER` attribute) with an empty
call trace: no lead is ever matched and no `update_lead` is ever
issued. -/
theorem matched_update_dead :
    handle_lead_processing envC3 renderFix shippedSettings recC3 10 20 []
      (some 7) (some 8) = (Except.error (), []) ∧
    (handle_lead_processing envC3 renderFix shippedSettings recC3 10 20 []
      (some 7) (some 8)).2.filter isUpdateCall = [] := by
  constructor
  · rfl
  · rfl

/-- A record without a tax id. -/
def recC10 : DBStatePurchase :=
  ⟨"PN-10", none, some "NoInn Co", none, some 250000, none, none, none, none, none, none⟩

/-- Environment for `recC10`: no lead matches and creation would succeed —
never consulted on the shipped program. -/
def envC10 : ProcEnv :=
  ⟨[], none, [], some ⟨some 3, some 9, none⟩, []⟩

/-- Claim C10 describes the inn-absent flow the source genuinely contains
(lines 190-222 skip the company block, 245-260 create the lead without a
company, 295-310 note and task) — but past the company skip that flow is
dead: processing `recC10` raises at the lead search (client.py line 391)
with an empty trace — no company call, as claimed, but also no lead
search, creation, note or task — and the lead-creation branch itself can
never run on any configuration, because building its custom-field
arguments (amocrm_processor.py lines 255-258) raises before `create_lead`
is invoked: the purchase-number and time-zone settings attributes are
undeclared, and so is the record attribute `time_zone` itself. -/
theorem inn_absent_flow_dead :
    handle_lead_processing envC10 renderFix shippedSettings recC10 10 20 []
      (some 7) (some 8) = (Except.error (), []) ∧
    ∀ settings : SettingsModel, newLeadArgs settings = Except.error () := by
  constructor
  · rfl
  · intro settings
    obtain ⟨mb, pn, tz, ph, em⟩ := settings
    cases pn <;> cases tz <;> rfl

/-- Claim C4 is false of the task-assignment logic it describes
(`_create_task`, amocrm_processor.py lines 108-131): with the coordinator
id resolved (5) and the unsorted sentinel known (6), a lead whose
responsible user is absent gets NO follow-up task at all (the guard at
lines 112-114 returns), and so does a lead owned by the sentinel when the
coordinator id is unresolved (lines 125-127) — in both cases the claim
demands a task assigned to the default coordinator.  (On the shipped
program the task step is additionally never reached: per-record processing
raises at the lead search first.) -/
theorem absent_responsible_no_task :
    createTaskStep 1 none false (some 6) (some 5) = [] ∧
    createTaskStep 1 (some 6) false (some 6) none = [] := by
  constructor
  · rfl
  · rfl

/-- Claim C4 (amended): the task step assigns the follow-up task to the
default coordinator if and only if the lead's current responsible user is
truthy AND equals the unsorted sentinel AND the coordinator's id is
resolved; when the responsible user is absent (falsy), or is the sentinel
while the coordinator's id is unresolved, NO task is created; otherwise the
task goes to the lead's current responsible user.  The rule is independent
of the new-versus-existing lead flag. -/
theorem task_assignment_rule (l : Nat) (respOpt : Option Nat) (isNew : Bool)
    (unsorted popova : Option Nat) :
    createTaskStep l respOpt isNew unsorted popova =
      (if !(optTruthy respOpt) then []
       else if respOpt == unsorted then
         (if optTruthy popova then [RemoteCall.create_task l (popova.getD 0) taskText]
          else [])
       else [RemoteCall.create_task l (respOpt.getD 0) taskText]) := by
  cases respOpt with
  | none => simp [createTaskStep, taskAssignee, optTruthy]
  | some r =>
    cases popova with
    | none =>
      cases isNew <;>
        simp only [createTaskStep, taskAssignee, optTruthy] <;>
        split_ifs <;> simp_all
    | some p =>
      cases isNew <;>
        simp only [createTaskStep, taskAssignee, optTruthy] <;>
        split_ifs <;> simp_all
